import Mathlib

set_option maxHeartbeats 1000000

/-!
Shallow embedding of the POV fan display core (pov_fan_correct.py):
rotation-phase tracking (check_hall_sensor) and the per-line display
scheduler (display_current_line), together with proofs about the claims
of the specification.  Times are microsecond integers as in the script;
Python float RPM arithmetic is modelled by exact rational arithmetic.
-/

namespace PovFan

/-- Python int() applied to a rational value: truncation toward zero,
which on nonnegative arguments coincides with the floor.  Used wherever
the script applies int() to a division result. -/
def pyInt (q : ℚ) : ℤ := if 0 ≤ q then q.floor else -((-q).floor)

/-- Mean of a list of rationals, sum(l)/len(l) as in the script. -/
def mean (l : List ℚ) : ℚ := l.sum / l.length

/-- Configuration constants of pov_fan_correct.py (hardware, timing and
noise-filtering sections), kept as parameters so that claims quantified
over divisions or thresholds can be stated. -/
structure Config where
  numLeds : Nat
  numDivisions : Nat
  linesToShift : Int
  timingMarginUs : Nat
  ledUpdateTimeUs : Nat
  defaultRpm : Nat
  minRpm : Nat
  maxRpm : Nat
  hallDebounceUs : Nat
  maxRpmChangePercent : ℚ
  rpmHistorySize : Nat
deriving DecidableEq

/-- The constant values of the script: NUM_LEDS 72, NUM_DIVISIONS 16,
LINES_TO_SHIFT -3, TIMING_MARGIN_US 300, LED_UPDATE_TIME_US 2800,
DEFAULT_RPM 900, MIN_RPM 250, MAX_RPM 1400, HALL_DEBOUNCE_US 5000,
MAX_RPM_CHANGE_PERCENT 40, RPM_HISTORY_SIZE 15. -/
def defaultConfig : Config :=
  { numLeds := 72
    numDivisions := 16
    linesToShift := -3
    timingMarginUs := 300
    ledUpdateTimeUs := 2800
    defaultRpm := 900
    minRpm := 250
    maxRpm := 1400
    hallDebounceUs := 5000
    maxRpmChangePercent := 40
    rpmHistorySize := 15 }

/-- The global mutable state of the script that the core loop touches. -/
structure PovState where
  last_hall_state : Bool
  last_hall_trigger_time : Nat
  last_rotation_micros : Nat
  rotation_time_micros : Nat
  time_per_line_micros : Nat
  current_line : Nat
  rotation_active : Bool
  current_rpm : ℚ
  stable_rpm : ℚ
  rpm_history : List ℚ
  actual_line_time_us : Nat
  rotation_count : Nat
  valid_rotation_count : Nat
  missed_lines_count : Nat
  noise_rejected_count : Nat
deriving DecidableEq

/-- Initial values of the globals: rotation inactive, cursor 0, default
RPM timing, empty history, all counters 0. -/
def initState (cfg : Config) : PovState :=
  let rot := (pyInt ((60000000 : ℚ) / cfg.defaultRpm)).toNat
  { last_hall_state := false
    last_hall_trigger_time := 0
    last_rotation_micros := 0
    rotation_time_micros := rot
    time_per_line_micros := rot / cfg.numDivisions
    current_line := 0
    rotation_active := false
    current_rpm := cfg.defaultRpm
    stable_rpm := cfg.defaultRpm
    rpm_history := []
    actual_line_time_us := 0
    rotation_count := 0
    valid_rotation_count := 0
    missed_lines_count := 0
    noise_rejected_count := 0 }

/-- min_rotation_time = int(60_000_000 / MAX_RPM) of check_hall_sensor. -/
def min_rotation_time (cfg : Config) : ℤ := pyInt ((60000000 : ℚ) / cfg.maxRpm)

/-- max_rotation_time = int(60_000_000 / MIN_RPM) of check_hall_sensor. -/
def max_rotation_time (cfg : Config) : ℤ := pyInt ((60000000 : ℚ) / cfg.minRpm)

/-- VALIDATION 1 of check_hall_sensor: the measured rotation time must
lie between min_rotation_time and max_rotation_time. -/
def period_valid (cfg : Config) (p : ℤ) : Bool :=
  decide (min_rotation_time cfg ≤ p ∧ p ≤ max_rotation_time cfg)

/-- VALIDATION 2 of check_hall_sensor: with at least 3 history samples,
reject when abs(instant - avg) / avg * 100 exceeds MAX_RPM_CHANGE_PERCENT. -/
def rpm_outlier (cfg : Config) (history : List ℚ) (instant : ℚ) : Bool :=
  decide (3 ≤ history.length) &&
    decide (|instant - mean history| / mean history * 100 > cfg.maxRpmChangePercent)

/-- The smoothed-RPM computation of check_hall_sensor (lines 474-481):
with at least 5 samples sort the history (Python sorted, modelled by
insertion sort on ℚ, which produces the same ascending list), take
sorted[2:-2] when more than 6 samples else sorted[1:-1], and average it,
falling back to the mean of the sorted list when the trim is empty;
with fewer than 5 samples, the plain mean of the history. -/
def compute_stable_rpm (history : List ℚ) : ℚ :=
  if 5 ≤ history.length then
    let sorted_rpm := List.insertionSort (· ≤ ·) history
    let trimmed :=
      if 6 < sorted_rpm.length then ((sorted_rpm.drop 2).dropLast).dropLast
      else (sorted_rpm.drop 1).dropLast
    if trimmed ≠ [] then mean trimmed else mean sorted_rpm
  else mean history

/-- Outcome of a revolution trigger whose measured period is rejected
(range-invalid or outlier, lines 440-448 and 458-465 of the script):
the trigger timestamp is taken, the noise counter is bumped, the phase
is reset (cursor to 0, revolution counted, previous timestamp updated)
but rotation_active and every timing field are left untouched. -/
def phase_reset_invalid (s : PovState) (now : Nat) : PovState :=
  { s with
    last_hall_trigger_time := now
    noise_rejected_count := s.noise_rejected_count + 1
    current_line := 0
    rotation_count := s.rotation_count + 1
    last_rotation_micros := now }

/-- Outcome of the very first trigger (last_rotation_micros still 0,
lines 501-505 of the script): phase reset, rotation becomes active, no
period is computed so history and timing keep their defaults. -/
def phase_reset_first (s : PovState) (now : Nat) : PovState :=
  { s with
    last_hall_trigger_time := now
    current_line := 0
    rotation_active := true
    rotation_count := s.rotation_count + 1
    last_rotation_micros := now }

/-- History after an accepted sample: append, then pop the oldest when
over RPM_HISTORY_SIZE (lines 468-470 of the script). -/
def accepted_history (cfg : Config) (hist : List ℚ) (instant : ℚ) : List ℚ :=
  if cfg.rpmHistorySize < (hist ++ [instant]).length then (hist ++ [instant]).drop 1
  else hist ++ [instant]

/-- Outcome of an accepted (valid, non-outlier) sample, lines 467-505 of
the script: insert into history, recompute the stable RPM, derive
rotation_time_micros = int(60e6 / stable_rpm) and
time_per_line_micros = rotation_time_micros // NUM_DIVISIONS clamped up
to LED_UPDATE_TIME_US, then the phase reset of the common tail. -/
def accept_update (cfg : Config) (s : PovState) (now : Nat) (instant : ℚ) : PovState :=
  let hist2 := accepted_history cfg s.rpm_history instant
  let stable := compute_stable_rpm hist2
  let rot := (pyInt ((60000000 : ℚ) / stable)).toNat
  let tpl0 := rot / cfg.numDivisions
  let tpl := if tpl0 < cfg.ledUpdateTimeUs then cfg.ledUpdateTimeUs else tpl0
  { s with
    last_hall_trigger_time := now
    rpm_history := hist2
    valid_rotation_count := s.valid_rotation_count + 1
    stable_rpm := stable
    current_rpm := stable
    rotation_time_micros := rot
    time_per_line_micros := tpl
    current_line := 0
    rotation_active := true
    rotation_count := s.rotation_count + 1
    last_rotation_micros := now }

/-- Body of check_hall_sensor before the final write of last_hall_state
(which Python performs on every path, either in an early return or at
the end of the function).  The measured rotation time is
now - last_rotation_micros; the instantaneous RPM is 60e6 / measured. -/
def check_hall_body (cfg : Config) (s : PovState) (current_state : Bool) (now : Nat) :
    PovState :=
  if current_state = true ∧ s.last_hall_state = false then
    if (now : ℤ) - s.last_hall_trigger_time < cfg.hallDebounceUs then
      { s with noise_rejected_count := s.noise_rejected_count + 1 }
    else if 0 < s.last_rotation_micros then
      if period_valid cfg ((now : ℤ) - s.last_rotation_micros) = false then
        phase_reset_invalid s now
      else if rpm_outlier cfg s.rpm_history
          (60000000 / (((now : ℤ) - s.last_rotation_micros : ℤ) : ℚ)) = true then
        phase_reset_invalid s now
      else
        accept_update cfg s now (60000000 / (((now : ℤ) - s.last_rotation_micros : ℤ) : ℚ))
    else phase_reset_first s now
  else s

/-- check_hall_sensor: poll the hall sensor level current_state at time
now (microseconds) and update the rotation state. -/
def check_hall_sensor (cfg : Config) (s : PovState) (current_state : Bool) (now : Nat) :
    PovState :=
  { check_hall_body cfg s current_state now with last_hall_state := current_state }

/-- line_to_show = (current_line + LINES_TO_SHIFT + NUM_DIVISIONS) % NUM_DIVISIONS
of display_current_line; Python % on a positive modulus agrees with
Int.emod. -/
def line_to_show (cfg : Config) (cur : Nat) : Nat :=
  (((cur : ℤ) + cfg.linesToShift + cfg.numDivisions) % cfg.numDivisions).toNat

/-- Result of one completed display_current_line call: the new globals,
the strip contents after the call, and the busy-wait duration (0 when
the deadline was already missed). -/
structure DisplayOut where
  state : PovState
  strip : List Nat
  busy_wait : Nat
deriving DecidableEq

/-- LED update step of display_current_line (lines 537-541): when
display_data is nonempty and line_to_show is an existing index, every
pixel i in range(NUM_LEDS) is set to line_data[i] and the strip is
shown; a stored line shorter than NUM_LEDS makes line_data[i] raise
IndexError, modelled as none (the loop aborts).  When display_data is
empty or the index has no entry, the update is skipped and the strip
keeps its previous contents. -/
def render_line (cfg : Config) (s : PovState) (display_data : List (List Nat))
    (strip : List Nat) : Option (List Nat) :=
  if display_data ≠ [] ∧ line_to_show cfg s.current_line < display_data.length then
    if cfg.numLeds ≤ (display_data.getD (line_to_show cfg s.current_line) []).length then
      some ((display_data.getD (line_to_show cfg s.current_line) []).take cfg.numLeds)
    else none
  else some strip

/-- remaining = time_per_line_micros - update_time - TIMING_MARGIN_US
(line 548 of the script). -/
def remaining_time (cfg : Config) (tpl ut : Nat) : ℤ :=
  (tpl : ℤ) - ut - cfg.timingMarginUs

/-- lines_to_skip = int((-remaining) / time_per_line_micros) (line 558);
both operands are positive there, so the Python float truncation is the
floor of the exact quotient. -/
def lines_to_skip (tpl : Nat) (remaining : ℤ) : Nat :=
  (pyInt ((-remaining : ℤ) / (tpl : ℚ))).toNat

/-- Overrun handling of display_current_line (lines 550-561): when more
than 1000µs behind, skip lines_to_skip lines and count them as missed
(nothing happens in the window remaining ∈ [-1000, 0]). -/
def overrun_skip (s : PovState) (remaining : ℤ) : PovState :=
  if 0 < remaining then s
  else if remaining < -1000 then
    if 0 < lines_to_skip s.time_per_line_micros remaining then
      { s with
        current_line := s.current_line + lines_to_skip s.time_per_line_micros remaining
        missed_lines_count :=
          s.missed_lines_count + lines_to_skip s.time_per_line_micros remaining }
    else s
  else s

/-- Cursor advance of display_current_line (lines 563-566): increment,
and reset to 0 when the result reaches NUM_DIVISIONS. -/
def advance_cursor (cfg : Config) (s : PovState) : PovState :=
  { s with
    current_line := if cfg.numDivisions ≤ s.current_line + 1 then 0 else s.current_line + 1 }

/-- display_current_line: show the line selected by the cursor, account
for the measured LED update time (update_time, an input here since it is
an external measurement), busy-wait any positive remainder
(busy_wait gives the spin duration), and skip lines on a large overrun. -/
def display_current_line (cfg : Config) (s : PovState)
    (display_data : List (List Nat)) (strip : List Nat) (update_time : Nat) :
    Option DisplayOut :=
  if s.rotation_active = false ∨ s.time_per_line_micros = 0 then
    some ⟨s, strip, 0⟩
  else
    match render_line cfg s display_data strip with
    | none => none
    | some stripA =>
      let remaining : ℤ := remaining_time cfg s.time_per_line_micros update_time
      some ⟨advance_cursor cfg (overrun_skip { s with actual_line_time_us := update_time } remaining),
            stripA,
            if 0 < remaining then remaining.toNat else 0⟩

/-- One operation of the main loop as far as the cursor is concerned: a
hall-sensor poll or a display call.  A display call that raises (short
line data) aborts before any cursor mutation, so the state at the abort
point is the pre-call state. -/
inductive Op where
  | hall (sensor : Bool) (now : Nat)
  | display (dd : List (List Nat)) (strip : List Nat) (ut : Nat)

/-- Apply one operation to the state. -/
def stepOp (cfg : Config) (s : PovState) : Op → PovState
  | .hall b t => check_hall_sensor cfg s b t
  | .display dd st ut =>
    match display_current_line cfg s dd st ut with
    | some r => r.state
    | none => s

/-- Run a sequence of operations. -/
def runOps (cfg : Config) (s : PovState) : List Op → PovState
  | [] => s
  | op :: ops => runOps cfg (stepOp cfg s op) ops

/-- A concrete scheduler state for the overrun scenarios: rotation
active, a 3000µs line budget, cursor at line 5. -/
def overrunState : PovState :=
  { initState defaultConfig with
    rotation_active := true
    time_per_line_micros := 3000
    current_line := 5 }

/-- A concrete active state with the default timing (4166µs per line). -/
def activeState : PovState :=
  { initState defaultConfig with rotation_active := true }

/-- Event trace: a first revolution edge at 10000µs, then edges at
250000µs, 292858µs and 335716µs (sensor released between edges), giving
measured periods 240000µs, 42858µs, 42858µs — all inside the RPM range,
none rejected, so the history afterwards holds 3 samples. -/
def threeSampleTrace : List Op :=
  [Op.hall true 10000, Op.hall false 20000, Op.hall true 250000, Op.hall false 260000,
   Op.hall true 292858, Op.hall false 300000, Op.hall true 335716]

/-- A concrete state with one revolution already recorded at 10000µs
(as after a first edge) and an empty history. -/
def calibState : PovState :=
  { initState defaultConfig with
    last_rotation_micros := 10000
    last_hall_trigger_time := 10000
    rotation_active := true
    rotation_count := 1 }

/-- A concrete state whose history already holds the three samples of
the outlier-rejection example of the specification. -/
def outlierState : PovState :=
  { initState defaultConfig with
    last_rotation_micros := 10000
    last_hall_trigger_time := 10000
    rotation_active := true
    rotation_count := 1
    rpm_history := [900, 905, 898] }

/-- A sample run mixing a revolution edge, an overrun display call and
a second edge, for exercising the cursor invariant. -/
def sampleOps : List Op :=
  [Op.hall true 10000, Op.display [] [] 60000, Op.hall false 12000, Op.hall true 80000]

/-- The hypothesis that every reachable state satisfies: once a previous
revolution timestamp has been recorded, the rotation has been marked
active (needed because the invalid-measurement paths do not write
rotation_active). -/
def rotationInvariant (s : PovState) : Prop :=
  0 < s.last_rotation_micros → s.rotation_active = true

/-- Validity interval exactly as claim C6 words it: the period lies
within [60000000/maxRpm, 60000000/minRpm] with exact (rational)
endpoints. -/
def spec_period_valid (cfg : Config) (p : ℤ) : Prop :=
  (60000000 : ℚ) / cfg.maxRpm ≤ (p : ℚ) ∧ (p : ℚ) ≤ (60000000 : ℚ) / cfg.minRpm

/-- Stable-RPM rule exactly as claim C2 words it: sort the history, drop
1 sample from each end when the history has at most 6 samples and 2
otherwise, average the remainder, and fall back to the plain mean when
the trimmed set would be empty. -/
def spec_stable_rpm (history : List ℚ) : ℚ :=
  let sorted := List.insertionSort (· ≤ ·) history
  let k := if sorted.length ≤ 6 then 1 else 2
  let trimmed := (sorted.drop k).take (sorted.length - 2 * k)
  if trimmed = [] then mean sorted else mean trimmed

/-- Stable-RPM rule as amended: the trimmed mean is only used once the
history holds at least 5 samples (below that the plain mean of the
unsorted history is used); with 5-6 samples drop 1 from each end, with
more than 6 drop 2, average the remainder, plain mean of the sorted
history if the trimmed set would be empty (never for 5 or more). -/
def spec_stable_rpm_amended (history : List ℚ) : ℚ :=
  if history.length < 5 then mean history
  else spec_stable_rpm history

/-- check_hall_sensor is the body followed by the unconditional write of
last_hall_state. -/
theorem check_hall_sensor_eq (cfg : Config) (s : PovState) (b : Bool) (now : Nat) :
    check_hall_sensor cfg s b now =
      { check_hall_body cfg s b now with last_hall_state := b } := rfl

/-- Without a rising edge the body changes nothing. -/
theorem check_hall_body_no_edge (cfg : Config) (s : PovState) (b : Bool) (now : Nat)
    (h : ¬(b = true ∧ s.last_hall_state = false)) :
    check_hall_body cfg s b now = s := by
  unfold check_hall_body; rw [if_neg h]

/-- A rising edge inside the debounce window only bumps the noise
counter. -/
theorem check_hall_body_debounced (cfg : Config) (s : PovState) (b : Bool) (now : Nat)
    (h1 : b = true) (h2 : s.last_hall_state = false)
    (hd : (now : ℤ) - s.last_hall_trigger_time < cfg.hallDebounceUs) :
    check_hall_body cfg s b now =
      { s with noise_rejected_count := s.noise_rejected_count + 1 } := by
  unfold check_hall_body; rw [if_pos ⟨h1, h2⟩, if_pos hd]

/-- A debounce-passing rising edge with no previous revolution timestamp
takes the first-revolution path. -/
theorem check_hall_body_first (cfg : Config) (s : PovState) (b : Bool) (now : Nat)
    (h1 : b = true) (h2 : s.last_hall_state = false)
    (hd : ¬((now : ℤ) - s.last_hall_trigger_time < cfg.hallDebounceUs))
    (hr : ¬(0 < s.last_rotation_micros)) :
    check_hall_body cfg s b now = phase_reset_first s now := by
  unfold check_hall_body; rw [if_pos ⟨h1, h2⟩, if_neg hd, if_neg hr]

/-- A debounce-passing rising edge whose measured period is out of
range takes the invalid path. -/
theorem check_hall_body_range_invalid (cfg : Config) (s : PovState) (b : Bool) (now : Nat)
    (h1 : b = true) (h2 : s.last_hall_state = false)
    (hd : ¬((now : ℤ) - s.last_hall_trigger_time < cfg.hallDebounceUs))
    (hr : 0 < s.last_rotation_micros)
    (hv : period_valid cfg ((now : ℤ) - s.last_rotation_micros) = false) :
    check_hall_body cfg s b now = phase_reset_invalid s now := by
  unfold check_hall_body; rw [if_pos ⟨h1, h2⟩, if_neg hd, if_pos hr, if_pos hv]

/-- A debounce-passing rising edge whose period is in range but rejected
as an outlier also takes the invalid path. -/
theorem check_hall_body_outlier (cfg : Config) (s : PovState) (b : Bool) (now : Nat)
    (h1 : b = true) (h2 : s.last_hall_state = false)
    (hd : ¬((now : ℤ) - s.last_hall_trigger_time < cfg.hallDebounceUs))
    (hr : 0 < s.last_rotation_micros)
    (hv : period_valid cfg ((now : ℤ) - s.last_rotation_micros) = true)
    (ho : rpm_outlier cfg s.rpm_history
        (60000000 / (((now : ℤ) - s.last_rotation_micros : ℤ) : ℚ)) = true) :
    check_hall_body cfg s b now = phase_reset_invalid s now := by
  unfold check_hall_body
  rw [if_pos ⟨h1, h2⟩, if_neg hd, if_pos hr, if_neg (by simp [hv]), if_pos ho]

/-- A debounce-passing rising edge with a range-valid, non-outlier
period takes the accept path. -/
theorem check_hall_body_accept (cfg : Config) (s : PovState) (b : Bool) (now : Nat)
    (h1 : b = true) (h2 : s.last_hall_state = false)
    (hd : ¬((now : ℤ) - s.last_hall_trigger_time < cfg.hallDebounceUs))
    (hr : 0 < s.last_rotation_micros)
    (hv : period_valid cfg ((now : ℤ) - s.last_rotation_micros) = true)
    (ho : rpm_outlier cfg s.rpm_history
        (60000000 / (((now : ℤ) - s.last_rotation_micros : ℤ) : ℚ)) = false) :
    check_hall_body cfg s b now =
      accept_update cfg s now (60000000 / (((now : ℤ) - s.last_rotation_micros : ℤ) : ℚ)) := by
  unfold check_hall_body
  rw [if_pos ⟨h1, h2⟩, if_neg hd, if_pos hr, if_neg (by simp [hv]),
    if_neg (by rw [ho]; exact Bool.false_ne_true)]

/-- With rotation inactive or a zero line budget, display_current_line
is a no-op. -/
theorem display_noop (cfg : Config) (s : PovState) (dd : List (List Nat))
    (strip : List Nat) (ut : Nat)
    (h : s.rotation_active = false ∨ s.time_per_line_micros = 0) :
    display_current_line cfg s dd strip ut = some ⟨s, strip, 0⟩ := by
  unfold display_current_line; rw [if_pos h]

/-- With rotation active and a successful LED update, one display call
is the timing record, overrun handling and cursor advance. -/
theorem display_step (cfg : Config) (s : PovState) (dd : List (List Nat))
    (strip : List Nat) (ut : Nat) (stripA : List Nat)
    (ha : s.rotation_active = true) (htpl : s.time_per_line_micros ≠ 0)
    (hrr : render_line cfg s dd strip = some stripA) :
    display_current_line cfg s dd strip ut =
      some ⟨advance_cursor cfg (overrun_skip { s with actual_line_time_us := ut }
              (remaining_time cfg s.time_per_line_micros ut)),
            stripA,
            if 0 < remaining_time cfg s.time_per_line_micros ut then
              (remaining_time cfg s.time_per_line_micros ut).toNat
            else 0⟩ := by
  unfold display_current_line
  rw [if_neg (by simp [ha, htpl]), hrr]

/-- With rotation active and a too-short stored line the call aborts. -/
theorem display_crash (cfg : Config) (s : PovState) (dd : List (List Nat))
    (strip : List Nat) (ut : Nat)
    (ha : s.rotation_active = true) (htpl : s.time_per_line_micros ≠ 0)
    (hrr : render_line cfg s dd strip = none) :
    display_current_line cfg s dd strip ut = none := by
  unfold display_current_line
  rw [if_neg (by simp [ha, htpl]), hrr]

/-- Empty frame data or a missing line index skip the LED update. -/
theorem render_line_skip (cfg : Config) (s : PovState) (dd : List (List Nat))
    (strip : List Nat)
    (h : dd = [] ∨ dd.length ≤ line_to_show cfg s.current_line) :
    render_line cfg s dd strip = some strip := by
  unfold render_line
  rw [if_neg]
  rintro ⟨h1, h2⟩
  rcases h with h | h
  · exact h1 h
  · omega

/-- A stored line shorter than the LED count aborts the LED update. -/
theorem render_line_short (cfg : Config) (s : PovState) (dd : List (List Nat))
    (strip : List Nat)
    (h1 : dd ≠ []) (h2 : line_to_show cfg s.current_line < dd.length)
    (h3 : (dd.getD (line_to_show cfg s.current_line) []).length < cfg.numLeds) :
    render_line cfg s dd strip = none := by
  unfold render_line
  rw [if_pos ⟨h1, h2⟩, if_neg (by omega)]

/-- With every stored line at least NUM_LEDS long, the LED update always
succeeds. -/
theorem render_line_ok (cfg : Config) (s : PovState) (dd : List (List Nat))
    (strip : List Nat) (hlen : ∀ l ∈ dd, cfg.numLeds ≤ l.length) :
    ∃ stripA, render_line cfg s dd strip = some stripA := by
  by_cases h : dd ≠ [] ∧ line_to_show cfg s.current_line < dd.length
  · have hmem : dd.getD (line_to_show cfg s.current_line) [] ∈ dd := by
      rw [List.getD_eq_getElem dd [] h.2]
      exact List.getElem_mem h.2
    exact ⟨_, by unfold render_line; rw [if_pos h, if_pos (hlen _ hmem)]⟩
  · exact ⟨_, by unfold render_line; rw [if_neg h]⟩

/-- In the window remaining ∈ [-1000, 0] the overrun handler does
nothing. -/
theorem overrun_skip_noop (s : PovState) (remaining : ℤ)
    (h1 : remaining ≤ 0) (h2 : -1000 ≤ remaining) :
    overrun_skip s remaining = s := by
  unfold overrun_skip
  rw [if_neg (by omega), if_neg (by omega)]

/-- More than 1000µs behind, the overrun handler adds lines_to_skip to
the cursor and to the missed-lines counter (for lines_to_skip = 0 the
script skips the writes, with the same result). -/
theorem overrun_skip_skip (s : PovState) (remaining : ℤ) (h2 : remaining < -1000) :
    overrun_skip s remaining =
      { s with
        current_line := s.current_line + lines_to_skip s.time_per_line_micros remaining
        missed_lines_count :=
          s.missed_lines_count + lines_to_skip s.time_per_line_micros remaining } := by
  unfold overrun_skip
  rw [if_neg (by omega), if_pos h2]
  split
  · rfl
  · next hk =>
    have hk0 : lines_to_skip s.time_per_line_micros remaining = 0 := by omega
    rw [hk0]
    rfl

/-- The cursor advance lands strictly below the division count. -/
theorem advance_cursor_lt (cfg : Config) (s : PovState) (hD : 0 < cfg.numDivisions) :
    (advance_cursor cfg s).current_line < cfg.numDivisions := by
  unfold advance_cursor
  dsimp only
  split <;> omega

/-- The hall-sensor poll leaves the cursor alone or resets it to 0. -/
theorem check_hall_body_cursor (cfg : Config) (s : PovState) (b : Bool) (now : Nat) :
    (check_hall_body cfg s b now).current_line = s.current_line ∨
      (check_hall_body cfg s b now).current_line = 0 := by
  unfold check_hall_body
  repeat' split
  all_goals simp [phase_reset_invalid, phase_reset_first, accept_update]

/-- The displayed-line computation always lands in [0, divisions). -/
theorem line_to_show_lt (cfg : Config) (hD : 0 < cfg.numDivisions) (c : Nat) :
    line_to_show cfg c < cfg.numDivisions := by
  unfold line_to_show
  have h1 : 0 ≤ ((c : ℤ) + cfg.linesToShift + cfg.numDivisions) % cfg.numDivisions :=
    Int.emod_nonneg _ (by omega)
  have h2 : ((c : ℤ) + cfg.linesToShift + cfg.numDivisions) % cfg.numDivisions
      < cfg.numDivisions :=
    Int.emod_lt_of_pos _ (by omega)
  omega

/-- A completed display call either left the state alone (inactive
no-op) or produced the overrun-then-advance update. -/
theorem display_some_cases (cfg : Config) (s : PovState) (dd : List (List Nat))
    (st : List Nat) (ut : Nat) (r : DisplayOut)
    (h : display_current_line cfg s dd st ut = some r) :
    r.state = s ∨
      r.state = advance_cursor cfg (overrun_skip { s with actual_line_time_us := ut }
        (remaining_time cfg s.time_per_line_micros ut)) := by
  unfold display_current_line at h
  split at h
  · left
    injection h with h'
    rw [← h']
  · split at h
    · exact Option.noConfusion h
    · right
      injection h with h'
      rw [← h']

/-- The overrun handler never touches the rotation flag or the previous
revolution timestamp. -/
theorem overrun_skip_same_fields (s : PovState) (remaining : ℤ) :
    (overrun_skip s remaining).rotation_active = s.rotation_active ∧
      (overrun_skip s remaining).last_rotation_micros = s.last_rotation_micros := by
  unfold overrun_skip
  repeat' split
  all_goals exact ⟨rfl, rfl⟩

/-- The initial state satisfies the rotation invariant. -/
theorem rotationInvariant_initState (cfg : Config) : rotationInvariant (initState cfg) := by
  intro h
  simp [initState] at h

/-- The hall-sensor poll preserves the rotation invariant. -/
theorem rotationInvariant_hall (cfg : Config) (s : PovState) (b : Bool) (now : Nat)
    (h : rotationInvariant s) : rotationInvariant (check_hall_sensor cfg s b now) := by
  rw [check_hall_sensor_eq]
  by_cases hedge : b = true ∧ s.last_hall_state = false
  · by_cases hd : (now : ℤ) - s.last_hall_trigger_time < cfg.hallDebounceUs
    · rw [check_hall_body_debounced cfg s b now hedge.1 hedge.2 hd]
      intro hpos
      exact h hpos
    · by_cases hr : 0 < s.last_rotation_micros
      · by_cases hv : period_valid cfg ((now : ℤ) - s.last_rotation_micros) = false
        · rw [check_hall_body_range_invalid cfg s b now hedge.1 hedge.2 hd hr hv]
          intro _
          exact h hr
        · have hv' : period_valid cfg ((now : ℤ) - s.last_rotation_micros) = true := by
            simpa using hv
          by_cases ho : rpm_outlier cfg s.rpm_history
              (60000000 / (((now : ℤ) - s.last_rotation_micros : ℤ) : ℚ)) = true
          · rw [check_hall_body_outlier cfg s b now hedge.1 hedge.2 hd hr hv' ho]
            intro _
            exact h hr
          · have ho' : rpm_outlier cfg s.rpm_history
                (60000000 / (((now : ℤ) - s.last_rotation_micros : ℤ) : ℚ)) = false := by
              simpa using ho
            rw [check_hall_body_accept cfg s b now hedge.1 hedge.2 hd hr hv' ho']
            intro _
            rfl
      · rw [check_hall_body_first cfg s b now hedge.1 hedge.2 hd hr]
        intro _
        rfl
  · rw [check_hall_body_no_edge cfg s b now hedge]
    intro hpos
    exact h hpos

/-- A completed display call preserves the rotation invariant. -/
theorem rotationInvariant_display (cfg : Config) (s : PovState) (dd : List (List Nat))
    (st : List Nat) (ut : Nat) (r : DisplayOut) (h : rotationInvariant s)
    (hd : display_current_line cfg s dd st ut = some r) : rotationInvariant r.state := by
  rcases display_some_cases cfg s dd st ut r hd with he | he
  · rw [he]; exact h
  · rw [he]
    intro hpos
    have h1 :
        (advance_cursor cfg (overrun_skip { s with actual_line_time_us := ut }
          (remaining_time cfg s.time_per_line_micros ut))).rotation_active
          = s.rotation_active :=
      (overrun_skip_same_fields { s with actual_line_time_us := ut } _).1
    have h2 :
        (advance_cursor cfg (overrun_skip { s with actual_line_time_us := ut }
          (remaining_time cfg s.time_per_line_micros ut))).last_rotation_micros
          = s.last_rotation_micros :=
      (overrun_skip_same_fields { s with actual_line_time_us := ut } _).2
    rw [h2] at hpos
    rw [h1]
    exact h hpos

/-- One loop operation preserves the rotation invariant. -/
theorem rotationInvariant_stepOp (cfg : Config) (s : PovState) (op : Op)
    (h : rotationInvariant s) : rotationInvariant (stepOp cfg s op) := by
  cases op with
  | hall b t => exact rotationInvariant_hall cfg s b t h
  | display dd st ut =>
    simp only [stepOp]
    cases hdc : display_current_line cfg s dd st ut with
    | none => exact h
    | some r => exact rotationInvariant_display cfg s dd st ut r h hdc

/-- Any run of loop operations preserves the rotation invariant, so
every state reachable from startup satisfies it. -/
theorem rotationInvariant_runOps (cfg : Config) (ops : List Op) :
    ∀ s : PovState, rotationInvariant s → rotationInvariant (runOps cfg s ops) := by
  induction ops with
  | nil => intro s hs; exact hs
  | cons op ops ih =>
    intro s hs
    exact ih _ (rotationInvariant_stepOp cfg s op hs)

/-- One loop operation keeps the cursor below the division count. -/
theorem stepOp_cursor (cfg : Config) (s : PovState) (op : Op) (hD : 0 < cfg.numDivisions)
    (hs : s.current_line < cfg.numDivisions) :
    (stepOp cfg s op).current_line < cfg.numDivisions := by
  cases op with
  | hall b t =>
    show (check_hall_body cfg s b t).current_line < cfg.numDivisions
    rcases check_hall_body_cursor cfg s b t with h | h <;> omega
  | display dd st ut =>
    simp only [stepOp]
    cases hdc : display_current_line cfg s dd st ut with
    | none => exact hs
    | some r =>
      show r.state.current_line < cfg.numDivisions
      rcases display_some_cases cfg s dd st ut r hdc with he | he
      · rw [he]; exact hs
      · rw [he]; exact advance_cursor_lt cfg _ hD

/-- Any run of loop operations keeps the cursor below the division
count. -/
theorem runOps_cursor (cfg : Config) (ops : List Op) :
    ∀ s : PovState, 0 < cfg.numDivisions → s.current_line < cfg.numDivisions →
      (runOps cfg s ops).current_line < cfg.numDivisions := by
  induction ops with
  | nil => intro s _ hs; exact hs
  | cons op ops ih =>
    intro s hD hs
    exact ih _ hD (stepOp_cursor cfg s op hD hs)

/-- Two dropLast applications are a take of all but the last two
elements. -/
theorem dropLast_dropLast {a : Type} (l : List a) :
    l.dropLast.dropLast = l.take (l.length - 2) := by
  rw [List.dropLast_eq_take l, List.dropLast_eq_take, List.take_take, List.length_take]
  congr 1
  omega

/-- The stable-RPM computation of the script agrees with the amended
trimmed-mean rule on every history. -/
theorem compute_stable_rpm_eq_amended (history : List ℚ) :
    compute_stable_rpm history = spec_stable_rpm_amended history := by
  unfold compute_stable_rpm spec_stable_rpm_amended spec_stable_rpm
  by_cases h5 : 5 ≤ history.length
  · rw [if_pos h5, if_neg (by omega : ¬ history.length < 5)]
    have hlen : (List.insertionSort (· ≤ ·) history).length = history.length :=
      List.length_insertionSort _ history
    dsimp only
    by_cases h6 : 6 < (List.insertionSort (· ≤ ·) history).length
    · rw [if_pos h6, if_neg (by omega : ¬ (List.insertionSort (· ≤ ·) history).length ≤ 6),
        dropLast_dropLast, List.length_drop]
      have harith : (List.insertionSort (· ≤ ·) history).length - 2 - 2
          = (List.insertionSort (· ≤ ·) history).length - 2 * 2 := by omega
      rw [harith]
      simp only [ne_eq]
      rw [ite_not]
    · rw [if_neg h6, if_pos (by omega : (List.insertionSort (· ≤ ·) history).length ≤ 6),
        List.dropLast_eq_take, List.length_drop]
      have harith : (List.insertionSort (· ≤ ·) history).length - 1 - 1
          = (List.insertionSort (· ≤ ·) history).length - 2 * 1 := by omega
      rw [harith]
      simp only [ne_eq]
      rw [ite_not]
  · rw [if_neg h5, if_pos (by omega : history.length < 5)]

section ClaimProofs

attribute [local semireducible] Rat.add Rat.mul Rat.inv Rat.sub Rat.ofScientific

/-- Claim C1, counterexample: with a 3000µs line budget, cursor at 5 and
a 60000µs LED update, remaining = -57300, lines_to_skip = 19, and the
cursor afterwards is 0, not (5 + 1 + 19) mod 16 = 9: the final wrap is a
single reset to zero, not a reduction modulo divisions. -/
theorem claim1_counterexample :
    (display_current_line defaultConfig overrunState [] [] 60000).map
        (fun r => (r.state.current_line, r.state.missed_lines_count)) = some (0, 19) ∧
      lines_to_skip overrunState.time_per_line_micros
          (remaining_time defaultConfig overrunState.time_per_line_micros 60000) = 19 ∧
      (overrunState.current_line + 1 + 19) % defaultConfig.numDivisions = 9 ∧
      (0 : Nat) ≠ 9 := by
  refine ⟨?_, ?_, ?_, ?_⟩ <;> decide

/-- Claim C1 (amended): on every display call in which remaining =
timePerLine - renderTime - safetyMargin is below -1000µs, the scheduler
computes lines_to_skip = floor(-remaining / timePerLine), increments the
missed-lines counter by exactly lines_to_skip, does not busy-wait, and
the cursor afterwards is its previous value advanced by 1 + lines_to_skip
when that stays below divisions, and 0 otherwise (a single reset to
zero rather than a reduction modulo divisions). -/
theorem claim1_theorem (cfg : Config) (s : PovState) (dd : List (List Nat))
    (strip : List Nat) (ut : Nat)
    (ha : s.rotation_active = true) (htpl : s.time_per_line_micros ≠ 0)
    (hlen : ∀ l ∈ dd, cfg.numLeds ≤ l.length)
    (hover : remaining_time cfg s.time_per_line_micros ut < -1000) :
    ∃ r, display_current_line cfg s dd strip ut = some r ∧
      r.state.missed_lines_count = s.missed_lines_count +
        lines_to_skip s.time_per_line_micros (remaining_time cfg s.time_per_line_micros ut) ∧
      r.state.current_line =
        (if cfg.numDivisions ≤ s.current_line +
            lines_to_skip s.time_per_line_micros
              (remaining_time cfg s.time_per_line_micros ut) + 1
          then 0
          else s.current_line +
            lines_to_skip s.time_per_line_micros
              (remaining_time cfg s.time_per_line_micros ut) + 1) ∧
      r.busy_wait = 0 := by
  obtain ⟨stripA, hrr⟩ := render_line_ok cfg s dd strip hlen
  refine ⟨_, display_step cfg s dd strip ut stripA ha htpl hrr, ?_, ?_, ?_⟩
  · rw [overrun_skip_skip _ _ hover]; rfl
  · rw [overrun_skip_skip _ _ hover]; rfl
  · exact if_neg (by omega)

/-- Claim C1, witness: an overrun of 1300µs behind a 3000µs budget skips
0 lines and advances the cursor from 5 to 6. -/
theorem claim1_witness :
    ∃ r, display_current_line defaultConfig overrunState [] [] 4000 = some r ∧
      r.state.missed_lines_count = overrunState.missed_lines_count +
        lines_to_skip overrunState.time_per_line_micros
          (remaining_time defaultConfig overrunState.time_per_line_micros 4000) ∧
      r.state.current_line =
        (if defaultConfig.numDivisions ≤ overrunState.current_line +
            lines_to_skip overrunState.time_per_line_micros
              (remaining_time defaultConfig overrunState.time_per_line_micros 4000) + 1
          then 0
          else overrunState.current_line +
            lines_to_skip overrunState.time_per_line_micros
              (remaining_time defaultConfig overrunState.time_per_line_micros 4000) + 1) ∧
      r.busy_wait = 0 :=
  claim1_theorem defaultConfig overrunState [] [] 4000 rfl (by decide)
    (fun l hl => absurd hl (List.not_mem_nil l)) (by decide)

/-- Claim C10: on every display call with remaining in [-1000µs, 0µs]
the scheduler neither busy-waits nor skips: the cursor advances by
exactly 1 wrapping at divisions, and the missed-lines counter is
unchanged. -/
theorem claim10_theorem (cfg : Config) (s : PovState) (dd : List (List Nat))
    (strip : List Nat) (ut : Nat)
    (ha : s.rotation_active = true) (htpl : s.time_per_line_micros ≠ 0)
    (hlen : ∀ l ∈ dd, cfg.numLeds ≤ l.length)
    (hcur : s.current_line < cfg.numDivisions)
    (hlo : -1000 ≤ remaining_time cfg s.time_per_line_micros ut)
    (hhi : remaining_time cfg s.time_per_line_micros ut ≤ 0) :
    ∃ r, display_current_line cfg s dd strip ut = some r ∧
      r.busy_wait = 0 ∧
      r.state.missed_lines_count = s.missed_lines_count ∧
      r.state.current_line = (s.current_line + 1) % cfg.numDivisions := by
  obtain ⟨stripA, hrr⟩ := render_line_ok cfg s dd strip hlen
  refine ⟨_, display_step cfg s dd strip ut stripA ha htpl hrr, ?_, ?_, ?_⟩
  · exact if_neg (by omega)
  · rw [overrun_skip_noop _ _ hhi hlo]; rfl
  · rw [overrun_skip_noop _ _ hhi hlo]
    show (if cfg.numDivisions ≤ s.current_line + 1 then 0 else s.current_line + 1)
        = (s.current_line + 1) % cfg.numDivisions
    rcases Nat.lt_or_ge (s.current_line + 1) cfg.numDivisions with h | h
    · rw [if_neg (by omega), Nat.mod_eq_of_lt h]
    · have he : s.current_line + 1 = cfg.numDivisions := by omega
      rw [if_pos (by omega), he, Nat.mod_self]

/-- Claim C10, witness: 134µs behind the 4166µs default budget, the
cursor goes from 0 to 1, nothing skipped, no busy wait. -/
theorem claim10_witness :
    ∃ r, display_current_line defaultConfig activeState [] [] 4000 = some r ∧
      r.busy_wait = 0 ∧
      r.state.missed_lines_count = activeState.missed_lines_count ∧
      r.state.current_line = (activeState.current_line + 1) % defaultConfig.numDivisions :=
  claim10_theorem defaultConfig activeState [] [] 4000 rfl (by decide)
    (fun l hl => absurd hl (List.not_mem_nil l)) (by decide) (by decide) (by decide)

/-- Claim C8: for every sequence of loop operations (per-line advance,
overrun skip of any magnitude, phase reset on a revolution event), the
cursor stays in [0, divisions) after each completed call, for any
divisions >= 1, and so does the displayed index
(current_line + shiftOffset + divisions) mod divisions. -/
theorem claim8_theorem (cfg : Config) (s : PovState) (ops : List Op)
    (hD : 1 ≤ cfg.numDivisions) (hs : s.current_line < cfg.numDivisions) :
    (runOps cfg s ops).current_line < cfg.numDivisions ∧
      line_to_show cfg (runOps cfg s ops).current_line < cfg.numDivisions :=
  ⟨runOps_cursor cfg ops s hD hs, line_to_show_lt cfg hD _⟩

/-- Claim C8, witness: the sample run (edge, huge overrun, edge) keeps
the cursor and the displayed index inside [0, 16). -/
theorem claim8_witness :
    1 ≤ defaultConfig.numDivisions ∧
      (initState defaultConfig).current_line < defaultConfig.numDivisions ∧
      ((runOps defaultConfig (initState defaultConfig) sampleOps).current_line
          < defaultConfig.numDivisions ∧
        line_to_show defaultConfig
            (runOps defaultConfig (initState defaultConfig) sampleOps).current_line
          < defaultConfig.numDivisions) :=
  ⟨by decide, by decide,
    claim8_theorem defaultConfig (initState defaultConfig) sampleOps (by decide) (by decide)⟩

/-- Claim C5, counterexample: a stored line shorter than the 72 LED
positions makes the display call abort (IndexError), and with empty
frame data the strip keeps its previous (lit) contents instead of
degrading to a blank line with all positions unlit. -/
theorem claim5_counterexample :
    display_current_line defaultConfig activeState (List.replicate 16 ([] : List Nat))
        (List.replicate 72 7) 0 = none ∧
      (display_current_line defaultConfig activeState [] (List.replicate 72 7) 0).map
          (fun r => r.strip) = some (List.replicate 72 7) ∧
      List.replicate 72 (7 : Nat) ≠ List.replicate 72 (0 : Nat) := by
  refine ⟨?_, ?_, ?_⟩ <;> decide

/-- Claim C5 (amended): while rotation is active, empty display data or
a line index with no entry make the scheduler skip the LED update and
complete normally, leaving the strip contents unchanged (not blanked);
a stored line shorter than the number of LED positions is not handled
and raises an index error that aborts the loop. -/
theorem claim5_theorem (cfg : Config) (s : PovState) (dd : List (List Nat))
    (strip : List Nat) (ut : Nat)
    (ha : s.rotation_active = true) (htpl : s.time_per_line_micros ≠ 0) :
    ((dd = [] ∨ dd.length ≤ line_to_show cfg s.current_line) →
        ∃ r, display_current_line cfg s dd strip ut = some r ∧ r.strip = strip) ∧
      (dd ≠ [] → line_to_show cfg s.current_line < dd.length →
        (dd.getD (line_to_show cfg s.current_line) []).length < cfg.numLeds →
        display_current_line cfg s dd strip ut = none) := by
  constructor
  · intro h
    exact ⟨_, display_step cfg s dd strip ut strip ha htpl
      (render_line_skip cfg s dd strip h), rfl⟩
  · intro h1 h2 h3
    exact display_crash cfg s dd strip ut ha htpl
      (render_line_short cfg s dd strip h1 h2 h3)

/-- Claim C5, witness: 16 empty stored lines abort the call; empty
display data completes and keeps the lit strip. -/
theorem claim5_witness :
    display_current_line defaultConfig activeState (List.replicate 16 ([] : List Nat))
        (List.replicate 72 7) 0 = none ∧
      ∃ r, display_current_line defaultConfig activeState [] (List.replicate 72 7) 0
          = some r ∧ r.strip = List.replicate 72 7 :=
  ⟨(claim5_theorem defaultConfig activeState (List.replicate 16 ([] : List Nat))
        (List.replicate 72 7) 0 rfl (by decide)).2 (by decide) (by decide) (by decide),
    (claim5_theorem defaultConfig activeState [] (List.replicate 72 7) 0 rfl
        (by decide)).1 (Or.inl rfl)⟩

/-- Claim C3: on a revolution-start event (rising edge past debounce,
previous timestamp recorded) whose measured period fails the range
check or the outlier check, the revolution counter still increments,
the cursor resets to 0, rotationActive is true afterwards (by the
invariant every reachable state with a recorded timestamp is already
active, and the flag is not cleared), the previous-event timestamp is
updated to now, and rpm_history, stable_rpm, rotation_time_micros and
time_per_line_micros are left unchanged. -/
theorem claim3_theorem (cfg : Config) (s : PovState) (b : Bool) (now : Nat)
    (hinv : rotationInvariant s)
    (h1 : b = true) (h2 : s.last_hall_state = false)
    (hd : ¬((now : ℤ) - s.last_hall_trigger_time < cfg.hallDebounceUs))
    (hr : 0 < s.last_rotation_micros)
    (hfail : period_valid cfg ((now : ℤ) - s.last_rotation_micros) = false ∨
      (period_valid cfg ((now : ℤ) - s.last_rotation_micros) = true ∧
        rpm_outlier cfg s.rpm_history
          (60000000 / (((now : ℤ) - s.last_rotation_micros : ℤ) : ℚ)) = true)) :
    (check_hall_sensor cfg s b now).rotation_count = s.rotation_count + 1 ∧
      (check_hall_sensor cfg s b now).current_line = 0 ∧
      (check_hall_sensor cfg s b now).rotation_active = true ∧
      (check_hall_sensor cfg s b now).last_rotation_micros = now ∧
      (check_hall_sensor cfg s b now).rpm_history = s.rpm_history ∧
      (check_hall_sensor cfg s b now).stable_rpm = s.stable_rpm ∧
      (check_hall_sensor cfg s b now).rotation_time_micros = s.rotation_time_micros ∧
      (check_hall_sensor cfg s b now).time_per_line_micros = s.time_per_line_micros := by
  have hb : check_hall_body cfg s b now = phase_reset_invalid s now := by
    rcases hfail with hv | ⟨hv, ho⟩
    · exact check_hall_body_range_invalid cfg s b now h1 h2 hd hr hv
    · exact check_hall_body_outlier cfg s b now h1 h2 hd hr hv ho
  rw [check_hall_sensor_eq, hb]
  exact ⟨rfl, rfl, hinv hr, rfl, rfl, rfl, rfl, rfl⟩

/-- Claim C3, witness: from a calibrated state, an edge 10000µs after
the previous one (period below the 42857µs minimum) still counts the
revolution and resets the phase while keeping all timing state. -/
theorem claim3_witness :
    (check_hall_sensor defaultConfig calibState true 20000).rotation_count
        = calibState.rotation_count + 1 ∧
      (check_hall_sensor defaultConfig calibState true 20000).current_line = 0 ∧
      (check_hall_sensor defaultConfig calibState true 20000).rotation_active = true ∧
      (check_hall_sensor defaultConfig calibState true 20000).last_rotation_micros = 20000 ∧
      (check_hall_sensor defaultConfig calibState true 20000).rpm_history
        = calibState.rpm_history ∧
      (check_hall_sensor defaultConfig calibState true 20000).stable_rpm
        = calibState.stable_rpm ∧
      (check_hall_sensor defaultConfig calibState true 20000).rotation_time_micros
        = calibState.rotation_time_micros ∧
      (check_hall_sensor defaultConfig calibState true 20000).time_per_line_micros
        = calibState.time_per_line_micros :=
  claim3_theorem defaultConfig calibState true 20000 (fun _ => rfl) rfl rfl
    (by decide) (by decide) (Or.inl (by decide))

/-- Claim C4, counterexample: two rising edges exactly 5000µs apart are
both accepted — at elapsed time equal to the debounce threshold the code
reports a revolution event, so "elapsed time exceeds the threshold" (a
strict inequality) is not the acceptance condition. -/
theorem claim4_counterexample :
    (check_hall_sensor defaultConfig (initState defaultConfig) true 5000).rotation_count
        = (initState defaultConfig).rotation_count + 1 ∧
      ¬((5000 : ℤ) - (initState defaultConfig).last_hall_trigger_time
          > (defaultConfig.hallDebounceUs : ℤ)) := by
  refine ⟨?_, ?_⟩ <;> decide

/-- Claim C4 (amended): a revolution-start event is reported iff the
transition is low-to-high and the elapsed time since the last accepted
trigger is at least the debounce threshold (so two rising edges
strictly less than debounceMicros apart yield one event); a rejected
trigger increments the noise counter by exactly 1 and changes nothing
but the stored sensor level. -/
theorem claim4_theorem (cfg : Config) (s : PovState) (b : Bool) (now : Nat) :
    ((check_hall_sensor cfg s b now).rotation_count = s.rotation_count + 1 ↔
        (b = true ∧ s.last_hall_state = false ∧
          (cfg.hallDebounceUs : ℤ) ≤ (now : ℤ) - s.last_hall_trigger_time)) ∧
      (b = true → s.last_hall_state = false →
        (now : ℤ) - s.last_hall_trigger_time < cfg.hallDebounceUs →
        check_hall_sensor cfg s b now =
          { s with
            noise_rejected_count := s.noise_rejected_count + 1
            last_hall_state := b }) := by
  constructor
  · constructor
    · intro h
      by_cases hedge : b = true ∧ s.last_hall_state = false
      · by_cases hd : (now : ℤ) - s.last_hall_trigger_time < cfg.hallDebounceUs
        · rw [check_hall_sensor_eq,
            check_hall_body_debounced cfg s b now hedge.1 hedge.2 hd] at h
          have h' : s.rotation_count = s.rotation_count + 1 := h
          omega
        · exact ⟨hedge.1, hedge.2, by omega⟩
      · rw [check_hall_sensor_eq, check_hall_body_no_edge cfg s b now hedge] at h
        have h' : s.rotation_count = s.rotation_count + 1 := h
        omega
    · rintro ⟨hb', hl', hd'⟩
      have hd'' : ¬((now : ℤ) - s.last_hall_trigger_time < cfg.hallDebounceUs) := by omega
      rw [check_hall_sensor_eq]
      by_cases hr : 0 < s.last_rotation_micros
      · by_cases hv : period_valid cfg ((now : ℤ) - s.last_rotation_micros) = false
        · rw [check_hall_body_range_invalid cfg s b now hb' hl' hd'' hr hv]; rfl
        · have hv' : period_valid cfg ((now : ℤ) - s.last_rotation_micros) = true := by
            simpa using hv
          by_cases ho : rpm_outlier cfg s.rpm_history
              (60000000 / (((now : ℤ) - s.last_rotation_micros : ℤ) : ℚ)) = true
          · rw [check_hall_body_outlier cfg s b now hb' hl' hd'' hr hv' ho]; rfl
          · have ho' : rpm_outlier cfg s.rpm_history
                (60000000 / (((now : ℤ) - s.last_rotation_micros : ℤ) : ℚ)) = false := by
              simpa using ho
            rw [check_hall_body_accept cfg s b now hb' hl' hd'' hr hv' ho']; rfl
      · rw [check_hall_body_first cfg s b now hb' hl' hd'' hr]; rfl
  · intro hb' hl' hd'
    rw [check_hall_sensor_eq, check_hall_body_debounced cfg s b now hb' hl' hd']

/-- Claim C4, witness: a spurious rising edge 2000µs after startup time
zero (inside the 5000µs window) only bumps the noise counter. -/
theorem claim4_witness :
    check_hall_sensor defaultConfig (initState defaultConfig) true 2000 =
      { initState defaultConfig with
        noise_rejected_count := (initState defaultConfig).noise_rejected_count + 1
        last_hall_state := true } :=
  (claim4_theorem defaultConfig (initState defaultConfig) true 2000).2 rfl rfl (by decide)

/-- Claim C9, counterexample: the very first rising edge ever observed,
arriving 2000µs after clock zero, is debounce-rejected (the initial
last-trigger timestamp is 0), so it is not reported as a revolution
event: the revolution counter stays 0 and rotationActive stays false. -/
theorem claim9_counterexample :
    (initState defaultConfig).last_rotation_micros = 0 ∧
      (check_hall_sensor defaultConfig (initState defaultConfig) true 2000).rotation_count
        = 0 ∧
      (check_hall_sensor defaultConfig (initState defaultConfig) true 2000).rotation_active
        = false ∧
      (check_hall_sensor defaultConfig (initState defaultConfig) true 2000).noise_rejected_count
        = 1 := by
  refine ⟨rfl, ?_, ?_, ?_⟩ <;> decide

/-- Claim C9 (amended): the very first low-to-high transition observed
(no previous revolution timestamp) is reported as a revolution event —
rotationActive becomes true and the revolution counter increments —
provided it arrives at least debounceMicros after clock zero (the
debounce window is measured from an initial trigger timestamp of 0);
it produces no period: history, stable RPM, rotation period, per-line
time and the valid-rotation counter are all left unchanged. -/
theorem claim9_theorem (cfg : Config) (s : PovState) (now : Nat)
    (h2 : s.last_hall_state = false) (h0 : s.last_rotation_micros = 0)
    (hd : (cfg.hallDebounceUs : ℤ) ≤ (now : ℤ) - s.last_hall_trigger_time) :
    (check_hall_sensor cfg s true now).rotation_active = true ∧
      (check_hall_sensor cfg s true now).rotation_count = s.rotation_count + 1 ∧
      (check_hall_sensor cfg s true now).current_line = 0 ∧
      (check_hall_sensor cfg s true now).last_rotation_micros = now ∧
      (check_hall_sensor cfg s true now).rpm_history = s.rpm_history ∧
      (check_hall_sensor cfg s true now).stable_rpm = s.stable_rpm ∧
      (check_hall_sensor cfg s true now).rotation_time_micros = s.rotation_time_micros ∧
      (check_hall_sensor cfg s true now).time_per_line_micros = s.time_per_line_micros ∧
      (check_hall_sensor cfg s true now).valid_rotation_count = s.valid_rotation_count := by
  rw [check_hall_sensor_eq,
    check_hall_body_first cfg s true now rfl h2 (by omega) (by omega)]
  exact ⟨rfl, rfl, rfl, rfl, rfl, rfl, rfl, rfl, rfl⟩

/-- Claim C9, witness: a first edge at 5000µs activates rotation and
counts the revolution while history and timing keep their defaults. -/
theorem claim9_witness :
    (check_hall_sensor defaultConfig (initState defaultConfig) true 5000).rotation_active
        = true ∧
      (check_hall_sensor defaultConfig (initState defaultConfig) true 5000).rotation_count
        = (initState defaultConfig).rotation_count + 1 ∧
      (check_hall_sensor defaultConfig (initState defaultConfig) true 5000).current_line
        = 0 ∧
      (check_hall_sensor defaultConfig (initState defaultConfig) true 5000).last_rotation_micros
        = 5000 ∧
      (check_hall_sensor defaultConfig (initState defaultConfig) true 5000).rpm_history
        = (initState defaultConfig).rpm_history ∧
      (check_hall_sensor defaultConfig (initState defaultConfig) true 5000).stable_rpm
        = (initState defaultConfig).stable_rpm ∧
      (check_hall_sensor defaultConfig (initState defaultConfig) true 5000).rotation_time_micros
        = (initState defaultConfig).rotation_time_micros ∧
      (check_hall_sensor defaultConfig (initState defaultConfig) true 5000).time_per_line_micros
        = (initState defaultConfig).time_per_line_micros ∧
      (check_hall_sensor defaultConfig (initState defaultConfig) true 5000).valid_rotation_count
        = (initState defaultConfig).valid_rotation_count :=
  claim9_theorem defaultConfig (initState defaultConfig) 5000 rfl rfl (by decide)

/-- Claim C6, counterexample: a measured period of 42857µs is accepted
by the code (the bounds are int-truncated to [42857, 240000]) although
it lies outside the exact interval [60000000/1400, 60000000/250], since
60000000/1400 = 42857.142857... > 42857. -/
theorem claim6_counterexample :
    period_valid defaultConfig 42857 = true ∧ ¬ spec_period_valid defaultConfig 42857 :=
  ⟨by decide, fun h => absurd h.1 (by decide)⟩

/-- Claim C6 (amended): a measured period is treated as valid iff it
lies within the integer-truncated bounds [int(60000000/maxRpm),
int(60000000/minRpm)]; with minRpm = 250 and maxRpm = 1400 these are
[42857, 240000], so 30000µs (2000 RPM) is invalid and 66667µs (900 RPM)
is valid, and an invalid period is not forwarded to the period
estimator: the RPM history and the valid-rotation counter are left
unchanged. -/
theorem claim6_theorem (p : ℤ) :
    (period_valid defaultConfig p = true ↔ 42857 ≤ p ∧ p ≤ 240000) ∧
      min_rotation_time defaultConfig = 42857 ∧
      max_rotation_time defaultConfig = 240000 ∧
      period_valid defaultConfig 30000 = false ∧
      period_valid defaultConfig 66667 = true ∧
      (∀ (cfg : Config) (s : PovState) (b : Bool) (now : Nat),
        b = true → s.last_hall_state = false →
        ¬((now : ℤ) - s.last_hall_trigger_time < cfg.hallDebounceUs) →
        0 < s.last_rotation_micros →
        period_valid cfg ((now : ℤ) - s.last_rotation_micros) = false →
        (check_hall_sensor cfg s b now).rpm_history = s.rpm_history ∧
          (check_hall_sensor cfg s b now).valid_rotation_count = s.valid_rotation_count) := by
  refine ⟨?_, by decide, by decide, by decide, by decide, ?_⟩
  · show decide (min_rotation_time defaultConfig ≤ p ∧ p ≤ max_rotation_time defaultConfig)
        = true ↔ _
    rw [(by decide : min_rotation_time defaultConfig = 42857),
      (by decide : max_rotation_time defaultConfig = 240000)]
    exact decide_eq_true_iff
  · intro cfg s b now hb hl hd hr hv
    rw [check_hall_sensor_eq, check_hall_body_range_invalid cfg s b now hb hl hd hr hv]
    exact ⟨rfl, rfl⟩

/-- Claim C6, witness: instantiated at period 100000µs and at the
calibrated state with an invalid 10000µs period. -/
theorem claim6_witness :
    (period_valid defaultConfig 100000 = true ↔
        42857 ≤ (100000 : ℤ) ∧ (100000 : ℤ) ≤ 240000) ∧
      ((check_hall_sensor defaultConfig calibState true 20000).rpm_history
          = calibState.rpm_history ∧
        (check_hall_sensor defaultConfig calibState true 20000).valid_rotation_count
          = calibState.valid_rotation_count) :=
  ⟨(claim6_theorem 100000).1,
    (claim6_theorem 100000).2.2.2.2.2 defaultConfig calibState true 20000 rfl rfl
      (by decide) (by decide) (by decide)⟩

/-- Claim C7: when the RPM history holds at least 3 samples, an
incoming range-valid instantaneous RPM is rejected — counted as noise,
history, valid-rotation counter unchanged — iff
|instant - mean| / mean (as a percentage) exceeds maxRpmChangePercent,
and otherwise it is inserted (evicting the oldest over capacity) with
the valid-rotation counter incremented; with history [900, 905, 898]
and the 40 percent threshold, 1500 RPM is rejected and 950 RPM is
accepted. -/
theorem claim7_theorem (cfg : Config) (s : PovState) (b : Bool) (now : Nat)
    (h1 : b = true) (h2 : s.last_hall_state = false)
    (hd : ¬((now : ℤ) - s.last_hall_trigger_time < cfg.hallDebounceUs))
    (hr : 0 < s.last_rotation_micros)
    (hv : period_valid cfg ((now : ℤ) - s.last_rotation_micros) = true)
    (hlen : 3 ≤ s.rpm_history.length) :
    (rpm_outlier cfg s.rpm_history
          (60000000 / (((now : ℤ) - s.last_rotation_micros : ℤ) : ℚ)) = true ↔
        |(60000000 / (((now : ℤ) - s.last_rotation_micros : ℤ) : ℚ)) - mean s.rpm_history|
            / mean s.rpm_history * 100 > cfg.maxRpmChangePercent) ∧
      (rpm_outlier cfg s.rpm_history
          (60000000 / (((now : ℤ) - s.last_rotation_micros : ℤ) : ℚ)) = true →
        (check_hall_sensor cfg s b now).rpm_history = s.rpm_history ∧
          (check_hall_sensor cfg s b now).noise_rejected_count
            = s.noise_rejected_count + 1 ∧
          (check_hall_sensor cfg s b now).valid_rotation_count = s.valid_rotation_count) ∧
      (rpm_outlier cfg s.rpm_history
          (60000000 / (((now : ℤ) - s.last_rotation_micros : ℤ) : ℚ)) = false →
        (check_hall_sensor cfg s b now).rpm_history
            = accepted_history cfg s.rpm_history
                (60000000 / (((now : ℤ) - s.last_rotation_micros : ℤ) : ℚ)) ∧
          (check_hall_sensor cfg s b now).noise_rejected_count = s.noise_rejected_count ∧
          (check_hall_sensor cfg s b now).valid_rotation_count
            = s.valid_rotation_count + 1) ∧
      rpm_outlier defaultConfig [900, 905, 898] 1500 = true ∧
      rpm_outlier defaultConfig [900, 905, 898] 950 = false := by
  refine ⟨?_, ?_, ?_, by decide, by decide⟩
  · unfold rpm_outlier
    rw [Bool.and_eq_true, decide_eq_true_iff, decide_eq_true_iff]
    exact and_iff_right hlen
  · intro ho
    rw [check_hall_sensor_eq, check_hall_body_outlier cfg s b now h1 h2 hd hr hv ho]
    exact ⟨rfl, rfl, rfl⟩
  · intro ho
    rw [check_hall_sensor_eq, check_hall_body_accept cfg s b now h1 h2 hd hr hv ho]
    exact ⟨rfl, rfl, rfl⟩

/-- Claim C7, witness: the concrete outlier examples of the specification,
obtained by instantiating the theorem at the state whose history is
[900, 905, 898] with a valid 66667µs period. -/
theorem claim7_witness :
    rpm_outlier defaultConfig [900, 905, 898] 1500 = true ∧
      rpm_outlier defaultConfig [900, 905, 898] 950 = false :=
  (claim7_theorem defaultConfig outlierState true 76667 rfl rfl (by decide) (by decide)
      (by decide) (by decide)).2.2.2

/-- Claim C2, counterexample: after the three-sample trace the history
is [250, 10000000/7143, 10000000/7143] (the third sample was just
accepted), but the stable RPM of the code is the plain mean of the three
samples, not the value obtained by sorting and dropping 1 sample from
each end as the claim prescribes for a history of at most 6 samples. -/
theorem claim2_counterexample :
    (runOps defaultConfig (initState defaultConfig) threeSampleTrace).rpm_history
        = [250, 10000000 / 7143, 10000000 / 7143] ∧
      (runOps defaultConfig (initState defaultConfig) threeSampleTrace).valid_rotation_count
        = 3 ∧
      (runOps defaultConfig (initState defaultConfig) threeSampleTrace).stable_rpm
        ≠ spec_stable_rpm
            ((runOps defaultConfig (initState defaultConfig) threeSampleTrace).rpm_history) := by
  refine ⟨?_, ?_, ?_⟩ <;> decide

/-- Claim C2 (amended): every time a raw period is accepted into the
RPM history, the recomputed stable RPM equals the plain mean of the
history when it holds fewer than 5 samples, and otherwise the trimmed
mean of the sorted history — drop 1 sample from each end with 5-6
samples, 2 with more than 6, average the remainder, plain mean if the
trimmed set would be empty; in particular for the 7-sample history
[800, 810, 820, 830, 840, 1200, 790] the stable RPM is the mean of the
middle 3 sorted values, 820. -/
theorem claim2_theorem (cfg : Config) (s : PovState) (b : Bool) (now : Nat)
    (h1 : b = true) (h2 : s.last_hall_state = false)
    (hd : ¬((now : ℤ) - s.last_hall_trigger_time < cfg.hallDebounceUs))
    (hr : 0 < s.last_rotation_micros)
    (hv : period_valid cfg ((now : ℤ) - s.last_rotation_micros) = true)
    (ho : rpm_outlier cfg s.rpm_history
        (60000000 / (((now : ℤ) - s.last_rotation_micros : ℤ) : ℚ)) = false) :
    (check_hall_sensor cfg s b now).stable_rpm
        = spec_stable_rpm_amended (check_hall_sensor cfg s b now).rpm_history ∧
      spec_stable_rpm_amended [800, 810, 820, 830, 840, 1200, 790]
        = (810 + 820 + 830) / 3 ∧
      compute_stable_rpm [800, 810, 820, 830, 840, 1200, 790] = (810 + 820 + 830) / 3 := by
  refine ⟨?_, by decide, by decide⟩
  rw [check_hall_sensor_eq, check_hall_body_accept cfg s b now h1 h2 hd hr hv ho]
  exact compute_stable_rpm_eq_amended _

/-- Claim C2, witness: a first valid period of 100000µs accepted from
the calibrated state, plus the 7-sample arithmetic example. -/
theorem claim2_witness :
    (check_hall_sensor defaultConfig calibState true 110000).stable_rpm
        = spec_stable_rpm_amended
            (check_hall_sensor defaultConfig calibState true 110000).rpm_history ∧
      spec_stable_rpm_amended [800, 810, 820, 830, 840, 1200, 790]
        = (810 + 820 + 830) / 3 ∧
      compute_stable_rpm [800, 810, 820, 830, 840, 1200, 790] = (810 + 820 + 830) / 3 :=
  claim2_theorem defaultConfig calibState true 110000 rfl rfl (by decide) (by decide)
    (by decide) (by decide)

end ClaimProofs

end PovFan



